import Mathlib

/-!
Shallow embedding of the drift-monitor / policy-classifier core of the
god-variable-theory repository.

Embedded source files:
* `src/gv_policy.py` — `GVPolicyConfig`, `GVRunCounters`, `classify_state`,
  `decide_action`, `update_counters`;
* `src/src/gv_edgecase_sims.py` — `GVMonitor.update`.

Python floats are modelled by `GVFloat`: an exact rational together with the
IEEE special values NaN, +inf and -inf; comparisons follow IEEE semantics
(every comparison involving NaN is false).  The decimal threshold literals of
the source are taken as exact rationals; no claim here depends on the gap
between a decimal literal and its binary rounding.  Strings (scenario labels,
state labels, actions, reasons) are Lean `String`s, and the classifier's
dict-shaped return value is the three-field record `GVDecision`.
-/

unseal Rat.add Rat.mul Rat.sub Rat.inv Rat.ofScientific

/-- Model of a Python float: an exact rational, or one of the IEEE special
values NaN, +infinity, -infinity. -/
inductive GVFloat where
  | finite (q : ℚ)
  | nan
  | inf
  | ninf
deriving DecidableEq, Repr

namespace GVFloat

/-- IEEE `<=`: false whenever either side is NaN, with -inf below and +inf
above every non-NaN value. -/
def le : GVFloat → GVFloat → Bool
  | nan, _ => false
  | _, nan => false
  | ninf, _ => true
  | _, ninf => false
  | _, inf => true
  | inf, _ => false
  | finite a, finite b => a ≤ b

/-- IEEE `<`: false whenever either side is NaN. -/
def lt : GVFloat → GVFloat → Bool
  | nan, _ => false
  | _, nan => false
  | ninf, ninf => false
  | ninf, _ => true
  | _, ninf => false
  | inf, _ => false
  | finite _, inf => true
  | finite a, finite b => a < b

/-- Python `x >= y` on floats. -/
def ge (x y : GVFloat) : Bool := le y x

/-- Python `x > y` on floats. -/
def gt (x y : GVFloat) : Bool := lt y x

end GVFloat

/-- Embedding of `GVPolicyConfig` (src/gv_policy.py, lines 19-40), defaults
included.  The frozenset of unrecoverable scenarios is modelled as a list of
strings, used only through membership. -/
structure GVPolicyConfig where
  unrecoverable_scenarios : List String :=
    ["swarm_amplification", "adversarial_saturation"]
  good_recoverability : GVFloat := .finite 0.60
  good_cum_abs_dgv : GVFloat := .finite 0.30
  good_peak_abs_ds_dt : GVFloat := .finite 0.0010
  stabilize_recoverability : GVFloat := .finite 0.60
  stabilize_cum_abs_dgv : GVFloat := .finite 0.30
  stabilize_peak_abs_ds_dt : GVFloat := .finite 0.0010
  refuse_recoverability_floor : GVFloat := .finite 0.05
  refuse_cum_abs_dgv : GVFloat := .finite 0.75
  refuse_peak_abs_ds_dt : GVFloat := .finite 0.0040
deriving Repr

/-- The default-constructed `GVPolicyConfig()` of the source. -/
def defaultGVPolicyConfig : GVPolicyConfig := {}

/-- Embedding of `classify_state` (src/gv_policy.py, lines 70-85): returns
"GOOD" when all three good-region threshold comparisons hold, else "BAD". -/
def classify_state (recoverability cum_abs_dgv peak_abs_ds_dt : GVFloat)
    (cfg : GVPolicyConfig) : String :=
  if GVFloat.ge recoverability cfg.good_recoverability
      && GVFloat.le cum_abs_dgv cfg.good_cum_abs_dgv
      && GVFloat.le peak_abs_ds_dt cfg.good_peak_abs_ds_dt then
    "GOOD"
  else
    "BAD"

/-- The dict returned by `decide_action`: keys `action`, `reason`, `state`. -/
structure GVDecision where
  action : String
  reason : String
  state : String
deriving DecidableEq, Repr

/-- Embedding of `decide_action` (src/gv_policy.py, lines 88-123).  The
fall-through from the unrecoverable block to the stabilize check is the
shared `tail` value. -/
def decide_action (scenario : String)
    (recoverability cum_abs_dgv peak_abs_ds_dt : GVFloat)
    (cfg : GVPolicyConfig) : GVDecision :=
  let state := classify_state recoverability cum_abs_dgv peak_abs_ds_dt cfg
  let tail : GVDecision :=
    if GVFloat.lt recoverability cfg.stabilize_recoverability
        || GVFloat.gt cum_abs_dgv cfg.stabilize_cum_abs_dgv
        || GVFloat.gt peak_abs_ds_dt cfg.stabilize_peak_abs_ds_dt then
      ⟨"STABILIZE", "trending_unsafe", state⟩
    else
      ⟨"CONTINUE", "", state⟩
  if scenario ∈ cfg.unrecoverable_scenarios then
    if GVFloat.le recoverability cfg.refuse_recoverability_floor then
      ⟨"SAFE_REFUSAL", "recoverability_floor", state⟩
    else if GVFloat.ge cum_abs_dgv cfg.refuse_cum_abs_dgv then
      ⟨"SAFE_REFUSAL", "drift_budget_exceeded", state⟩
    else if GVFloat.ge peak_abs_ds_dt cfg.refuse_peak_abs_ds_dt then
      ⟨"SAFE_REFUSAL", "dsdt_spike", state⟩
    else
      tail
  else
    tail

/-- Embedding of `GVRunCounters` (src/gv_policy.py, lines 43-57).  Python
ints are modelled as `ℤ`. -/
structure GVRunCounters where
  steps_total : ℤ := 0
  steps_good : ℤ := 0
  steps_bad : ℤ := 0
  first_bad_step : Option ℤ := none
  last_recovery_steps : Option ℤ := none
deriving DecidableEq, Repr

/-- Embedding of `GVRunCounters.goodness_ratio`: `0.0` when
`steps_total <= 0`, else the true division `steps_good / steps_total`. -/
def GVRunCounters.goodness_ratio (c : GVRunCounters) : ℚ :=
  if c.steps_total ≤ 0 then 0
  else (c.steps_good : ℚ) / (c.steps_total : ℚ)

/-- Embedding of `update_counters` (src/gv_policy.py, lines 126-145), the
in-place mutation made explicit: result counters as a function of the input
counters and the state string. -/
def update_counters (counters : GVRunCounters) (state : String) :
    GVRunCounters :=
  let counters := { counters with steps_total := counters.steps_total + 1 }
  if state = "GOOD" then
    let counters := { counters with steps_good := counters.steps_good + 1 }
    match counters.first_bad_step with
    | some fb =>
        { counters with
            last_recovery_steps := some (counters.steps_total - fb),
            first_bad_step := none }
    | none => counters
  else
    let counters := { counters with steps_bad := counters.steps_bad + 1 }
    match counters.first_bad_step with
    | some _ => counters
    | none => { counters with first_bad_step := some counters.steps_total }

/-- Fresh counters (`GVRunCounters()` of the source) after a whole sequence
of `update_counters` calls. -/
def run_counters (states : List String) : GVRunCounters :=
  states.foldl update_counters {}

/-- Embedding of `GVMonitor` (src/src/gv_edgecase_sims.py, lines 9-30),
defaults included; `_prev_s` is `None` on construction. -/
structure GVMonitor where
  alpha : ℚ := 0.92
  beta : ℚ := 0.08
  threshold : ℚ := 0.015
  _prev_s : Option ℚ := none
deriving DecidableEq, Repr

/-- Embedding of `GVMonitor.update` (src/src/gv_edgecase_sims.py, lines
23-30): combines the two entropies, takes the first difference against
`_prev_s` (`0.0` on the first call), stores the new combined value and
returns `(s_total, ds_dt)` together with the mutated monitor. -/
def GVMonitor.update (m : GVMonitor) (global_entropy local_entropy : ℚ) :
    GVMonitor × ℚ × ℚ :=
  let s_total := m.alpha * global_entropy + m.beta * local_entropy
  let ds_dt :=
    match m._prev_s with
    | none => 0
    | some p => s_total - p
  ({ m with _prev_s := some s_total }, s_total, ds_dt)

/-- The per-step `(s_total, ds_dt)` outputs of a `GVMonitor` driven over a
list of `(global_entropy, local_entropy)` input pairs. -/
def runGVMonitor : GVMonitor → List (ℚ × ℚ) → List (ℚ × ℚ)
  | _, [] => []
  | m, (g, l) :: rest =>
      let r := m.update g l
      (r.2.1, r.2.2) :: runGVMonitor r.1 rest

/-- Modelled from the spec (section 4.1 Signal Monitor): the monitor the
spec describes, with a smoothing factor `gamma` and a running
`smoothed_velocity` state.  This definition follows the spec's words, for
comparison with the source-embedded `GVMonitor`; no such smoothed monitor
exists under src/. -/
structure SpecSignalMonitor where
  alpha : ℚ
  beta : ℚ
  gamma : ℚ
  previous_combined : Option ℚ := none
  smoothed_velocity : ℚ := 0
deriving DecidableEq, Repr

/-- Modelled from the spec: `update` of the spec's Signal Monitor.  Computes
`s_total = alpha*global + beta*local`, `raw_delta` (0.0 on the first
observation), `smoothed_velocity = gamma*smoothed_velocity +
(1-gamma)*raw_delta`, stores both, and returns `(s_total,
smoothed_velocity)`. -/
def SpecSignalMonitor.update (m : SpecSignalMonitor)
    (global_entropy local_entropy : ℚ) : SpecSignalMonitor × ℚ × ℚ :=
  let s_total := m.alpha * global_entropy + m.beta * local_entropy
  let raw_delta :=
    match m.previous_combined with
    | none => 0
    | some p => s_total - p
  let sv := m.gamma * m.smoothed_velocity + (1 - m.gamma) * raw_delta
  ({ m with previous_combined := some s_total, smoothed_velocity := sv },
    s_total, sv)

/-- The per-step `(s_total, ds_dt)` outputs of the spec's Signal Monitor
over a list of input pairs. -/
def runSpecSignalMonitor : SpecSignalMonitor → List (ℚ × ℚ) → List (ℚ × ℚ)
  | _, [] => []
  | m, (g, l) :: rest =>
      let r := m.update g l
      (r.2.1, r.2.2) :: runSpecSignalMonitor r.1 rest

/-- C1: for any scenario in the configured unrecoverable-scenario set, when
recoverability is at or below the refuse floor, decide_action returns
SAFE_REFUSAL with reason recoverability_floor, for all drift and velocity
values. -/
theorem decide_action_refusal_dominance (cfg : GVPolicyConfig)
    (scenario : String) (r c p : GVFloat)
    (hmem : scenario ∈ cfg.unrecoverable_scenarios)
    (hfloor : GVFloat.le r cfg.refuse_recoverability_floor = true) :
    (decide_action scenario r c p cfg).action = "SAFE_REFUSAL" ∧
    (decide_action scenario r c p cfg).reason = "recoverability_floor" := by
  simp [decide_action, hmem, hfloor]

theorem decide_action_refusal_dominance_witness :
    "adversarial_saturation" ∈ defaultGVPolicyConfig.unrecoverable_scenarios ∧
    GVFloat.le (.finite 0.03) defaultGVPolicyConfig.refuse_recoverability_floor
      = true ∧
    (decide_action "adversarial_saturation" (.finite 0.03) (.finite 0.10)
      (.finite 0.0001) defaultGVPolicyConfig).action = "SAFE_REFUSAL" ∧
    (decide_action "adversarial_saturation" (.finite 0.03) (.finite 0.10)
      (.finite 0.0001) defaultGVPolicyConfig).reason = "recoverability_floor" :=
  ⟨by decide, by decide,
    decide_action_refusal_dominance defaultGVPolicyConfig
      "adversarial_saturation" (.finite 0.03) (.finite 0.10) (.finite 0.0001)
      (by decide) (by decide)⟩

/-- C2: for any scenario outside the configured unrecoverable-scenario set,
decide_action never returns SAFE_REFUSAL; and as soon as zero recoverability
lies strictly below the stabilize threshold (as it does in the default
config), recoverability 0.0 yields STABILIZE with reason trending_unsafe for
all drift and velocity values. -/
theorem decide_action_stabilize_fallback (cfg : GVPolicyConfig)
    (scenario : String)
    (hmem : scenario ∉ cfg.unrecoverable_scenarios) :
    (∀ r c p : GVFloat,
      (decide_action scenario r c p cfg).action ≠ "SAFE_REFUSAL") ∧
    (GVFloat.lt (.finite 0) cfg.stabilize_recoverability = true →
      ∀ c p : GVFloat,
        (decide_action scenario (.finite 0) c p cfg).action = "STABILIZE" ∧
        (decide_action scenario (.finite 0) c p cfg).reason
          = "trending_unsafe") := by
  constructor
  · intro r c p
    simp only [decide_action, if_neg hmem]
    split <;> simp
  · intro h0 c p
    simp [decide_action, hmem, h0]

theorem decide_action_stabilize_fallback_witness :
    "benign" ∉ defaultGVPolicyConfig.unrecoverable_scenarios ∧
    (decide_action "benign" .nan (.finite 5) (.finite 5)
      defaultGVPolicyConfig).action ≠ "SAFE_REFUSAL" ∧
    (decide_action "benign" (.finite 0) (.finite 1) (.finite 1)
      defaultGVPolicyConfig).action = "STABILIZE" ∧
    (decide_action "benign" (.finite 0) (.finite 1) (.finite 1)
      defaultGVPolicyConfig).reason = "trending_unsafe" :=
  ⟨by decide,
    (decide_action_stabilize_fallback defaultGVPolicyConfig "benign"
      (by decide)).1 .nan (.finite 5) (.finite 5),
    ((decide_action_stabilize_fallback defaultGVPolicyConfig "benign"
      (by decide)).2 (by decide) (.finite 1) (.finite 1)).1,
    ((decide_action_stabilize_fallback defaultGVPolicyConfig "benign"
      (by decide)).2 (by decide) (.finite 1) (.finite 1)).2⟩

/-- C4 counterexample: on the state sequence [BAD, BAD, BAD, GOOD] from
fresh counters, the source leaves last_recovery_steps = 3, so the claimed
value 4 (together with first_bad_step = None) is false. -/
theorem recovery_bbbg_not_four :
    ¬ ((run_counters ["BAD", "BAD", "BAD", "GOOD"]).last_recovery_steps
          = some 4 ∧
       (run_counters ["BAD", "BAD", "BAD", "GOOD"]).first_bad_step = none) :=
  by decide

/-- C4 amended: after [BAD, BAD, BAD, GOOD] from fresh counters,
last_recovery_steps = 3 (steps_total 4 minus first_bad_step 1) and
first_bad_step is None. -/
theorem recovery_bbbg_eq_three :
    (run_counters ["BAD", "BAD", "BAD", "GOOD"]).last_recovery_steps = some 3 ∧
    (run_counters ["BAD", "BAD", "BAD", "GOOD"]).first_bad_step = none :=
  by decide

/-- C5: the code is not fail-safe on non-finite metrics.  With NaN
recoverability (and favorable finite drift and velocity) decide_action
returns CONTINUE for a scenario outside the unrecoverable set, and with
+infinity recoverability classify_state even returns GOOD — both
contradicting the spec's requirement that unclassifiable signals are never
reported as GOOD or CONTINUE. -/
theorem nonfinite_metrics_not_failsafe :
    (decide_action "benign" .nan (.finite 0) (.finite 0)
      defaultGVPolicyConfig).action = "CONTINUE" ∧
    classify_state .nan (.finite 0) (.finite 0) defaultGVPolicyConfig
      = "BAD" ∧
    classify_state .inf (.finite 0) (.finite 0) defaultGVPolicyConfig
      = "GOOD" := by decide

/-- C3 counterexample: fed (1,1) then (2,2), the source monitor (alpha 0.92,
beta 0.08) returns ds_dt = 1 on the second step — exactly the raw per-step
difference of the combined signal (2 - 1) — while the spec's smoothed
monitor with the repository's smoothing factor 0.95 would return 1/20; the
update does not return a smoothed velocity in place of the raw difference. -/
theorem gvmonitor_smoothing_counterexample :
    runGVMonitor {} [(1, 1), (2, 2)] = [(1, 0), (2, 2 - 1)] ∧
    runSpecSignalMonitor ⟨0.92, 0.08, 0.95, none, 0⟩ [(1, 1), (2, 2)]
      = [(1, 0), (2, 0.05)] ∧
    ((2 : ℚ) - 1 ≠ 0.05) := by decide

/-- The source monitor run from any previous-value state produces the same
outputs as the spec's smoothed monitor with gamma = 0 from a matching state
(any smoothed-velocity seed): with gamma = 0 the smoothing recurrence
degenerates to the raw delta. -/
theorem runGVMonitor_eq_gamma_zero_aux (alpha beta threshold sv : ℚ)
    (prev : Option ℚ) (inputs : List (ℚ × ℚ)) :
    runGVMonitor ⟨alpha, beta, threshold, prev⟩ inputs =
    runSpecSignalMonitor ⟨alpha, beta, 0, prev, sv⟩ inputs := by
  induction inputs generalizing prev sv with
  | nil => rfl
  | cons hd tl ih =>
      obtain ⟨g, l⟩ := hd
      simp only [runGVMonitor, runSpecSignalMonitor, GVMonitor.update,
        SpecSignalMonitor.update, zero_mul, zero_add, one_mul]
      rw [show (1 : ℚ) - 0 = 1 by norm_num, one_mul]
      exact congrArg _ (ih _ _)

/-- C3 amended: GVMonitor.update keeps no smoothed-velocity state; it
returns the raw first difference of s_total (0.0 on the first call) directly
as ds_dt, which coincides with the spec's exponential-smoothing design only
in the degenerate instantaneous case gamma = 0: a fresh source monitor and
the fresh gamma = 0 spec monitor produce identical output streams on every
input sequence. -/
theorem gvmonitor_run_eq_gamma_zero_spec (alpha beta threshold : ℚ)
    (inputs : List (ℚ × ℚ)) :
    runGVMonitor ⟨alpha, beta, threshold, none⟩ inputs =
    runSpecSignalMonitor ⟨alpha, beta, 0, none, 0⟩ inputs :=
  runGVMonitor_eq_gamma_zero_aux alpha beta threshold 0 none inputs

/-- Single-step preservation of the counter invariant
steps_good + steps_bad = steps_total. -/
theorem update_counters_invariant_step (c : GVRunCounters) (state : String)
    (h : c.steps_good + c.steps_bad = c.steps_total) :
    (update_counters c state).steps_good + (update_counters c state).steps_bad
      = (update_counters c state).steps_total := by
  simp only [update_counters]
  split <;> (split <;> simp <;> omega)

/-- C6: for every sequence of update_counters calls from fresh counters,
steps_good + steps_bad = steps_total holds after every call. -/
theorem counters_good_add_bad_eq_total (states : List String) :
    (run_counters states).steps_good + (run_counters states).steps_bad
      = (run_counters states).steps_total := by
  suffices h : ∀ (l : List String) (c : GVRunCounters),
      c.steps_good + c.steps_bad = c.steps_total →
      (l.foldl update_counters c).steps_good
        + (l.foldl update_counters c).steps_bad
        = (l.foldl update_counters c).steps_total by
    exact h states {} rfl
  intro l
  induction l with
  | nil => intro c hc; exact hc
  | cons s t ih =>
      intro c hc
      exact ih _ (update_counters_invariant_step c s hc)

/-- Folding BAD steps over counters with an open bad streak keeps
first_bad_step unchanged and adds the number of steps to steps_total. -/
theorem foldl_bad_keeps_streak (k : ℕ) (c : GVRunCounters) (f : ℤ)
    (h : c.first_bad_step = some f) :
    ((List.replicate k "BAD").foldl update_counters c).first_bad_step = some f
    ∧ ((List.replicate k "BAD").foldl update_counters c).steps_total
        = c.steps_total + k := by
  induction k generalizing c with
  | zero => simpa using h
  | succ n ih =>
      have hne : ¬ (("BAD" : String) = "GOOD") := by decide
      have hstep : update_counters c "BAD" =
          { c with steps_total := c.steps_total + 1,
                   steps_bad := c.steps_bad + 1 } := by
        simp [update_counters, hne, h]
      rw [List.replicate_succ, List.foldl_cons, hstep]
      obtain ⟨h1, h2⟩ := ih { c with steps_total := c.steps_total + 1,
                                     steps_bad := c.steps_bad + 1 } h
      refine ⟨h1, ?_⟩
      rw [h2]
      push_cast
      ring

/-- Folding a nonempty run of BAD steps over counters with no open bad
streak opens a streak at the next step index and adds the number of steps to
steps_total. -/
theorem foldl_bad_opens_streak (k : ℕ) (hk : 1 ≤ k) (c : GVRunCounters)
    (h : c.first_bad_step = none) :
    ((List.replicate k "BAD").foldl update_counters c).first_bad_step
        = some (c.steps_total + 1)
    ∧ ((List.replicate k "BAD").foldl update_counters c).steps_total
        = c.steps_total + k := by
  obtain ⟨n, rfl⟩ : ∃ n, k = n + 1 := ⟨k - 1, by omega⟩
  have hne : ¬ (("BAD" : String) = "GOOD") := by decide
  have hstep : update_counters c "BAD" =
      { c with steps_total := c.steps_total + 1,
               steps_bad := c.steps_bad + 1,
               first_bad_step := some (c.steps_total + 1) } := by
    simp [update_counters, hne, h]
  rw [List.replicate_succ, List.foldl_cons, hstep]
  obtain ⟨h1, h2⟩ := foldl_bad_keeps_streak n
    { c with steps_total := c.steps_total + 1, steps_bad := c.steps_bad + 1,
             first_bad_step := some (c.steps_total + 1) }
    (c.steps_total + 1) rfl
  refine ⟨h1, ?_⟩
  rw [h2]
  push_cast
  ring

/-- C7: a GOOD step that closes an open streak of exactly k >= 1 consecutive
BAD steps (the streak opened right after a prefix that left no open streak)
sets last_recovery_steps to steps_total minus first_bad_step, which equals
k, and clears first_bad_step. -/
theorem update_counters_closes_bad_streak (pre : List String) (k : ℕ)
    (hk : 1 ≤ k)
    (hpre : (run_counters pre).first_bad_step = none) :
    ∃ f : ℤ,
      (run_counters (pre ++ List.replicate k "BAD")).first_bad_step = some f ∧
      (update_counters (run_counters (pre ++ List.replicate k "BAD"))
          "GOOD").last_recovery_steps
        = some ((update_counters (run_counters (pre ++ List.replicate k "BAD"))
            "GOOD").steps_total - f) ∧
      (update_counters (run_counters (pre ++ List.replicate k "BAD"))
          "GOOD").last_recovery_steps = some (k : ℤ) ∧
      (update_counters (run_counters (pre ++ List.replicate k "BAD"))
          "GOOD").first_bad_step = none := by
  have hsplit : run_counters (pre ++ List.replicate k "BAD")
      = (List.replicate k "BAD").foldl update_counters (run_counters pre) := by
    simp [run_counters, List.foldl_append]
  obtain ⟨h1, h2⟩ := foldl_bad_opens_streak k hk (run_counters pre) hpre
  rw [← hsplit] at h1 h2
  refine ⟨(run_counters pre).steps_total + 1, h1, ?_⟩
  have hgood : update_counters (run_counters (pre ++ List.replicate k "BAD"))
      "GOOD" =
      { run_counters (pre ++ List.replicate k "BAD") with
          steps_total :=
            (run_counters (pre ++ List.replicate k "BAD")).steps_total + 1,
          steps_good :=
            (run_counters (pre ++ List.replicate k "BAD")).steps_good + 1,
          last_recovery_steps :=
            some ((run_counters (pre ++ List.replicate k "BAD")).steps_total
              + 1 - ((run_counters pre).steps_total + 1)),
          first_bad_step := none } := by
    simp [update_counters, h1]
  rw [hgood]
  refine ⟨rfl, ?_, rfl⟩
  simp only [h2]
  congr 1
  omega

theorem update_counters_closes_bad_streak_witness :
    ∃ f : ℤ,
      (run_counters ([] ++ List.replicate 3 "BAD")).first_bad_step = some f ∧
      (update_counters (run_counters ([] ++ List.replicate 3 "BAD"))
          "GOOD").last_recovery_steps
        = some ((update_counters (run_counters ([] ++ List.replicate 3 "BAD"))
            "GOOD").steps_total - f) ∧
      (update_counters (run_counters ([] ++ List.replicate 3 "BAD"))
          "GOOD").last_recovery_steps = some ((3 : ℕ) : ℤ) ∧
      (update_counters (run_counters ([] ++ List.replicate 3 "BAD"))
          "GOOD").first_bad_step = none :=
  update_counters_closes_bad_streak [] 3 (by decide) rfl

/-- C9: goodness_ratio is a total function of the counters: it returns 0.0
when steps_total = 0 and the exact quotient steps_good / steps_total when
steps_total > 0. -/
theorem goodness_ratio_spec (c : GVRunCounters) :
    (c.steps_total = 0 → c.goodness_ratio = 0) ∧
    (0 < c.steps_total →
      c.goodness_ratio = (c.steps_good : ℚ) / (c.steps_total : ℚ)) := by
  constructor
  · intro h
    simp [GVRunCounters.goodness_ratio, h]
  · intro h
    rw [GVRunCounters.goodness_ratio, if_neg (by omega)]

theorem goodness_ratio_spec_witness :
    GVRunCounters.goodness_ratio {} = 0 ∧
    GVRunCounters.goodness_ratio
      { steps_total := 2, steps_good := 1, steps_bad := 1 } = (1 : ℚ) / 2 :=
  ⟨(goodness_ratio_spec {}).1 rfl,
    by simpa using (goodness_ratio_spec
      { steps_total := 2, steps_good := 1, steps_bad := 1 }).2 (by decide)⟩

/-- C8: on a freshly constructed monitor (_prev_s = None), the first update
returns ds_dt = 0.0 whatever the two inputs are. -/
theorem gvmonitor_first_update_ds_dt_zero
    (alpha beta threshold global_entropy local_entropy : ℚ) :
    (GVMonitor.update ⟨alpha, beta, threshold, none⟩
      global_entropy local_entropy).2.2 = 0 := rfl

/-- On non-NaN operands the IEEE comparisons are complementary:
x < y exactly when not y <= x. -/
theorem GVFloat.lt_eq_not_le (x y : GVFloat) (hx : x ≠ .nan)
    (hy : y ≠ .nan) : GVFloat.lt x y = !GVFloat.le y x := by
  have hq : ∀ a b : ℚ, (decide (a < b)) = !(decide (b ≤ a)) := by
    intro a b
    by_cases h : a < b
    · simp [h, not_le.mpr h]
    · simp [h, not_lt.mp h]
  cases x <;> cases y <;>
    simp_all [GVFloat.lt, GVFloat.le]

/-- C10: under the default config, whose GOOD-region thresholds coincide
with the stabilize thresholds, for every scenario outside the unrecoverable
set and all non-NaN metric values the action is CONTINUE exactly when the
classified state is GOOD: the GOOD predicate and the stabilize trigger are
exact complements. -/
theorem continue_iff_good_default (scenario : String) (r c p : GVFloat)
    (hs : scenario ∉ defaultGVPolicyConfig.unrecoverable_scenarios)
    (hr : r ≠ .nan) (hc : c ≠ .nan) (hp : p ≠ .nan) :
    (decide_action scenario r c p defaultGVPolicyConfig).action = "CONTINUE"
      ↔ classify_state r c p defaultGVPolicyConfig = "GOOD" := by
  have e1 : GVFloat.lt r (.finite 0.60) = !GVFloat.le (.finite 0.60) r :=
    GVFloat.lt_eq_not_le r (.finite 0.60) hr (by decide)
  have e2 : GVFloat.lt (.finite 0.30) c = !GVFloat.le c (.finite 0.30) :=
    GVFloat.lt_eq_not_le (.finite 0.30) c (by decide) hc
  have e3 : GVFloat.lt (.finite 0.0010) p = !GVFloat.le p (.finite 0.0010) :=
    GVFloat.lt_eq_not_le (.finite 0.0010) p (by decide) hp
  have hs' : scenario ∉ ["swarm_amplification", "adversarial_saturation"] :=
    by simpa [defaultGVPolicyConfig] using hs
  simp only [decide_action, classify_state, GVFloat.ge, GVFloat.gt,
    defaultGVPolicyConfig]
  rw [if_neg hs', e1, e2, e3]
  by_cases h1 : GVFloat.le (.finite 0.60) r = true <;>
    by_cases h2 : GVFloat.le c (.finite 0.30) = true <;>
      by_cases h3 : GVFloat.le p (.finite 0.0010) = true <;>
        simp [h1, h2, h3]

theorem continue_iff_good_default_witness :
    (decide_action "benign" (.finite 1) (.finite 0) (.finite 0)
      defaultGVPolicyConfig).action = "CONTINUE"
      ↔ classify_state (.finite 1) (.finite 0) (.finite 0)
          defaultGVPolicyConfig = "GOOD" :=
  continue_iff_good_default "benign" (.finite 1) (.finite 0) (.finite 0)
    (by decide) (by decide) (by decide) (by decide)
